import Mathlib

/-!
Verification development for the `rust-launchagent` repository.

The repository defines a typed data model mirroring Apple's `launchd`
property-list schema (`src/launchagent/structs.rs` and friends), builders
generated by `derive_builder`, and a `save` routine that renders a
`LaunchAgent` to an XML plist file (`src/launchagent/impls.rs`).

We embed the data model shallowly: Rust structs become Lean structures,
Rust enums become Lean inductives, `Option<T>` becomes `Option`,
`Vec<T>`/`HashMap<K,V>` become `List`/association lists.  Serialization is
embedded at the level of the serde data model as rendered by the `plist`
codec (the spec's "generic property-list codec" black box): a struct maps
to a dictionary whose keys follow the `#[serde(rename_all = "PascalCase")]`
and `#[serde(rename = "...")]` attributes, a `None` field is omitted by the
codec, an `#[serde(untagged)]` enum serializes as the bare encoding of its
active variant, an enum *without* `untagged` serializes externally tagged
(a dictionary mapping the variant name to the variant's encoding), a unit
variant serializes as its name string, `u32`/`i8` map to plist integers and
`f32` to plist reals (the `f32` payload is carried as a `Rat`; the code
never performs float arithmetic, it only stores and serializes the value).
-/

namespace RustLaunchAgent

/-- The plist value data model produced by the generic codec: strings,
integers, reals, booleans, arrays and dictionaries (association lists). -/
inductive PValue where
  | str (s : String)
  | int (n : Int)
  | real (r : Rat)
  | bool (b : Bool)
  | array (xs : List PValue)
  | dict (kvs : List (String × PValue))

/-- One dictionary entry contributed by an optional struct field: a `None`
field is omitted entirely by the plist codec, a `Some` field appears under
its key. -/
def optEntry (k : String) (v : Option PValue) : List (String × PValue) :=
  match v with
  | none => []
  | some x => [(k, x)]

/-- Mirrors `src/unions.rs`: `StringOrF32`, an untagged union whose `Integer`
variant holds an `f32` (serialized by the plist codec as a real). -/
inductive StringOrF32 where
  | string (s : String)
  | integer (x : Rat)

/-- Mirrors `src/unions.rs`: `StringOrU32`, an untagged union whose `Integer`
variant holds a `u32` (serialized as a plist integer). -/
inductive StringOrU32 where
  | string (s : String)
  | integer (n : Nat)

/-- Mirrors `src/unions.rs`: `StringOrVec`, an untagged string-or-string-array. -/
inductive StringOrVec where
  | string (s : String)
  | vec (xs : List String)

/-- Untagged (`#[serde(untagged)]`) serialization of `StringOrF32`: the bare encoding
of the active variant; the `f32` payload renders as a plist real. -/
def serializeStringOrF32 : StringOrF32 → PValue
  | .string s => .str s
  | .integer x => .real x

/-- Untagged (`#[serde(untagged)]`) serialization of `StringOrU32`: the bare encoding
of the active variant; the `u32` payload renders as a plist integer. -/
def serializeStringOrU32 : StringOrU32 → PValue
  | .string s => .str s
  | .integer n => .int n

/-- Untagged (`#[serde(untagged)]`) serialization of `StringOrVec`. -/
def serializeStringOrVec : StringOrVec → PValue
  | .string s => .str s
  | .vec xs => .array (xs.map .str)

/-- Mirrors `src/constraints.rs`: `SessionType`, an untagged string-or-array union. -/
inductive SessionType where
  | single (s : String)
  | many (xs : List String)

/-- Untagged (`#[serde(untagged)]`) serialization of `SessionType`. -/
def serializeSessionType : SessionType → PValue
  | .single s => .str s
  | .many xs => .array (xs.map .str)

/-- Mirrors `src/constraints.rs`: `ProcessType`, a plain enum of unit variants. -/
inductive ProcessType where
  | background
  | standard
  | adaptive
  | interactive

/-- A unit variant serializes as its (unrenamed) variant name string. -/
def serializeProcessType : ProcessType → PValue
  | .background => .str "Background"
  | .standard => .str "Standard"
  | .adaptive => .str "Adaptive"
  | .interactive => .str "Interactive"

/-- Mirrors `src/constraints.rs`: `ResourceLimits`, nine independent optional `u32`
fields. -/
structure ResourceLimits where
  core : Option Nat := none
  cpu : Option Nat := none
  data : Option Nat := none
  file_size : Option Nat := none
  memory_lock : Option Nat := none
  number_of_files : Option Nat := none
  number_of_processes : Option Nat := none
  resident_set_size : Option Nat := none
  stack : Option Nat := none

/-- Serialization of `ResourceLimits`: `#[serde(rename_all = "PascalCase")]`
with the one explicit rename `#[serde(rename = "CPU")]` on `cpu`; `None`
fields are omitted by the codec. -/
def serializeResourceLimits (rl : ResourceLimits) : List (String × PValue) :=
  optEntry "Core" (rl.core.map (fun n => .int n)) ++
  optEntry "CPU" (rl.cpu.map (fun n => .int n)) ++
  optEntry "Data" (rl.data.map (fun n => .int n)) ++
  optEntry "FileSize" (rl.file_size.map (fun n => .int n)) ++
  optEntry "MemoryLock" (rl.memory_lock.map (fun n => .int n)) ++
  optEntry "NumberOfFiles" (rl.number_of_files.map (fun n => .int n)) ++
  optEntry "NumberOfProcesses" (rl.number_of_processes.map (fun n => .int n)) ++
  optEntry "ResidentSetSize" (rl.resident_set_size.map (fun n => .int n)) ++
  optEntry "Stack" (rl.stack.map (fun n => .int n))

/-- Mirrors `src/keep_alive.rs`: the `KeepAlive` enum.  Note: the Rust declaration
carries `#[serde(rename_all = "PascalCase")]` (which on an enum renames the
*variants*, already PascalCase) but **no** `#[serde(untagged)]`, unlike every
other union in the crate. -/
inductive KeepAlive where
  | bool (b : Bool)
  | object (successful_exit : Option Bool) (network_state : Option Bool)
      (path_state : Option (List (String × Bool)))
      (other_job_enabled : Option (List (String × Bool)))
      (crashed : Option Bool)

/-- Serialization of `KeepAlive` as the code declares it: since the enum is
*not* `#[serde(untagged)]`, serde renders it externally tagged — a
dictionary mapping the variant name to the variant's content — and the
struct-variant fields keep their snake_case names (the enum-level
`rename_all` only renames variants, not struct-variant fields). -/
def serializeKeepAlive : KeepAlive → PValue
  | .bool b => .dict [("Bool", .bool b)]
  | .object successful_exit network_state path_state other_job_enabled crashed =>
      .dict [("Object", .dict (
        optEntry "successful_exit" (successful_exit.map .bool) ++
        optEntry "network_state" (network_state.map .bool) ++
        optEntry "path_state" (path_state.map (fun m =>
          .dict (m.map (fun kv => (kv.1, .bool kv.2))))) ++
        optEntry "other_job_enabled" (other_job_enabled.map (fun m =>
          .dict (m.map (fun kv => (kv.1, .bool kv.2))))) ++
        optEntry "crashed" (crashed.map .bool)))]

/-- Mirrors `src/ipc.rs`: `InetdCompatibility`, one optional boolean. -/
structure InetdCompatibility where
  wait : Option Bool := none

/-- Serialization of `InetdCompatibility` (PascalCase keys, `None` omitted). -/
def serializeInetdCompatibility (ic : InetdCompatibility) : List (String × PValue) :=
  optEntry "Wait" (ic.wait.map .bool)

/-- Mirrors `src/ipc.rs`: `MachService`, an `#[serde(untagged)]` bool-or-object
union; the object variant's two booleans carry `#[serde(default)]` and are
plain `bool`s (not `Option`s), so the object form always serializes both. -/
inductive MachService where
  | bool (b : Bool)
  | object (reset_at_close : Bool) (hide_until_check_in : Bool)

/-- Untagged (`#[serde(untagged)]`) serialization of `MachService`; the object variant
uses `#[serde(rename_all = "PascalCase")]` on its fields. -/
def serializeMachService : MachService → PValue
  | .bool b => .bool b
  | .object reset_at_close hide_until_check_in =>
      .dict [("ResetAtClose", .bool reset_at_close),
             ("HideUntilCheckIn", .bool hide_until_check_in)]

/-- Mirrors `src/ipc.rs`: `SocketType`, unit variants. -/
inductive SocketType where
  | stream
  | dgram
  | seqpacket

/-- Unit variants serialize as their names. -/
def serializeSocketType : SocketType → PValue
  | .stream => .str "Stream"
  | .dgram => .str "Dgram"
  | .seqpacket => .str "Seqpacket"

/-- Mirrors `src/ipc.rs`: `SocketFamily`, unit variants. -/
inductive SocketFamily where
  | ipv4
  | ipv6
  | ipv4v6
  | unix

/-- Unit variants serialize as their names. -/
def serializeSocketFamily : SocketFamily → PValue
  | .ipv4 => .str "IPv4"
  | .ipv6 => .str "IPv6"
  | .ipv4v6 => .str "IPv4v6"
  | .unix => .str "Unix"

/-- Mirrors `src/ipc.rs`: `SocketProtocol`, unit variants. -/
inductive SocketProtocol where
  | tcp
  | udp

/-- Unit variants serialize as their names. -/
def serializeSocketProtocol : SocketProtocol → PValue
  | .tcp => .str "TCP"
  | .udp => .str "UDP"

/-- Mirrors `src/ipc.rs`: `Bonjour`, an untagged bool-or-string-or-array union. -/
inductive Bonjour where
  | bool (b : Bool)
  | string (s : String)
  | array (xs : List String)

/-- Untagged (`#[serde(untagged)]`) serialization of `Bonjour`. -/
def serializeBonjour : Bonjour → PValue
  | .bool b => .bool b
  | .string s => .str s
  | .array xs => .array (xs.map .str)

/-- Mirrors `src/ipc.rs`: `Socket`, up to thirteen independent optional fields.
`path_mode` is an `f32` in the source (carried here as `Rat`);
`service_name` is a `StringOrU32`. -/
structure Socket where
  socket_type : Option SocketType := none
  passive : Option Bool := none
  node_name : Option String := none
  service_name : Option StringOrU32 := none
  family : Option SocketFamily := none
  protocol : Option SocketProtocol := none
  path_name : Option String := none
  secure_socket_with_key : Option String := none
  path_owner : Option Nat := none
  path_group : Option Nat := none
  path_mode : Option Rat := none
  bonjour : Option Bonjour := none
  multicast_group : Option String := none

/-- Serialization of `Socket`: PascalCase plus the explicit `Sock*` renames
of the source (`SockType`, `SockPassive`, `SockNodeName`, `SockServiceName`,
`SockFamily`, `SockProtocol`, `SockPathName`, `SockPathOwner`,
`SockPathGroup`, `SockPathMode`); `None` fields are omitted. -/
def serializeSocket (s : Socket) : List (String × PValue) :=
  optEntry "SockType" (s.socket_type.map serializeSocketType) ++
  optEntry "SockPassive" (s.passive.map .bool) ++
  optEntry "SockNodeName" (s.node_name.map .str) ++
  optEntry "SockServiceName" (s.service_name.map serializeStringOrU32) ++
  optEntry "SockFamily" (s.family.map serializeSocketFamily) ++
  optEntry "SockProtocol" (s.protocol.map serializeSocketProtocol) ++
  optEntry "SockPathName" (s.path_name.map .str) ++
  optEntry "SecureSocketWithKey" (s.secure_socket_with_key.map .str) ++
  optEntry "SockPathOwner" (s.path_owner.map (fun n => .int n)) ++
  optEntry "SockPathGroup" (s.path_group.map (fun n => .int n)) ++
  optEntry "SockPathMode" (s.path_mode.map .real) ++
  optEntry "Bonjour" (s.bonjour.map serializeBonjour) ++
  optEntry "MulticastGroup" (s.multicast_group.map .str)

/-- Mirrors `src/ipc.rs`: `SocketValue`, an untagged single-or-many union. -/
inductive SocketValue where
  | single (s : Socket)
  | many (xs : List Socket)

/-- Untagged (`#[serde(untagged)]`) serialization of `SocketValue`. -/
def serializeSocketValue : SocketValue → PValue
  | .single s => .dict (serializeSocket s)
  | .many xs => .array (xs.map (fun s => .dict (serializeSocket s)))

/-- Mirrors `src/triggers.rs`: `CalendarInterval`, five independent optional
integer fields. -/
structure CalendarInterval where
  minute : Option Nat := none
  hour : Option Nat := none
  day : Option Nat := none
  weekday : Option Nat := none
  month : Option Nat := none

/-- Serialization of `CalendarInterval` (PascalCase keys, `None` omitted). -/
def serializeCalendarInterval (ci : CalendarInterval) : List (String × PValue) :=
  optEntry "Minute" (ci.minute.map (fun n => .int n)) ++
  optEntry "Hour" (ci.hour.map (fun n => .int n)) ++
  optEntry "Day" (ci.day.map (fun n => .int n)) ++
  optEntry "Weekday" (ci.weekday.map (fun n => .int n)) ++
  optEntry "Month" (ci.month.map (fun n => .int n))

/-- Mirrors `src/launchagent/structs.rs`: the `LaunchAgent` root struct.  `label` is
the only non-optional field; every other field is `Option` and independently
nullable.  Field order follows the Rust declaration.  `HashMap`s are carried
as association lists. -/
structure LaunchAgent where
  label : String := ""
  disabled : Option Bool := none
  user_name : Option String := none
  group_name : Option String := none
  inetd_compatibility : Option InetdCompatibility := none
  limit_load_to_hosts : Option (List String) := none
  limit_load_from_hosts : Option (List String) := none
  limit_load_to_session_type : Option SessionType := none
  limit_load_to_hardware : Option (List (String × List String)) := none
  limit_load_from_hardware : Option (List (String × List String)) := none
  program : Option String := none
  bundle_program : Option String := none
  program_arguments : Option (List String) := none
  enable_globbing : Option Bool := none
  enable_transactions : Option Bool := none
  enable_pressured_exit : Option Bool := none
  on_demand : Option Bool := none
  service_ipc : Option Bool := none
  keep_alive : Option KeepAlive := none
  run_at_load : Option Bool := none
  root_directory : Option String := none
  working_directory : Option String := none
  environment_variables : Option (List (String × String)) := none
  umask : Option StringOrF32 := none
  time_out : Option Nat := none
  exit_time_out : Option Nat := none
  throttle_interval : Option Nat := none
  init_groups : Option Bool := none
  watch_paths : Option (List String) := none
  queue_directories : Option (List String) := none
  start_on_mount : Option Bool := none
  start_interval : Option Nat := none
  start_calendar_interval : Option (List CalendarInterval) := none
  standard_in_path : Option String := none
  standard_out_path : Option String := none
  standard_error_path : Option String := none
  debug : Option Bool := none
  wait_for_debugger : Option Bool := none
  soft_resource_limits : Option ResourceLimits := none
  hard_resource_limits : Option ResourceLimits := none
  nice : Option Int := none
  process_type : Option ProcessType := none
  abandon_process_group : Option Bool := none
  low_priority_io : Option Bool := none
  low_priority_background_io : Option Bool := none
  materialized_dataless_files : Option Bool := none
  launch_only_once : Option Bool := none
  mach_services : Option (List (String × MachService)) := none
  sockets : Option (List (String × SocketValue)) := none
  launch_events : Option (List (String × List (String × List (String × String)))) := none
  hopefully_exits_last : Option String := none
  hopefully_exits_first : Option String := none
  session_create : Option Bool := none
  legacy_timers : Option Bool := none
  associated_bundle_identifiers : Option StringOrVec := none

/-- Helper: encode a `HashMap<String, Vec<String>>` value. -/
def encodeStringListMap (m : List (String × List String)) : PValue :=
  .dict (m.map (fun kv => (kv.1, .array (kv.2.map .str))))

/-- Helper: encode a `HashMap<String, String>` value. -/
def encodeStringMap (m : List (String × String)) : PValue :=
  .dict (m.map (fun kv => (kv.1, .str kv.2)))

/-- First part of the serde field table of `LaunchAgent` (declaration order,
identity/scope and invocation fields). -/
def fieldTableA (la : LaunchAgent) : List (String × Option PValue) :=
  [("Label", some (PValue.str la.label)),
   ("Disabled", la.disabled.map PValue.bool),
   ("UserName", la.user_name.map PValue.str),
   ("GroupName", la.group_name.map PValue.str),
   ("InetdCompatibility", la.inetd_compatibility.map
      (fun ic => PValue.dict (serializeInetdCompatibility ic))),
   ("LimitLoadToHosts", la.limit_load_to_hosts.map
      (fun xs => PValue.array (xs.map PValue.str))),
   ("LimitLoadFromHosts", la.limit_load_from_hosts.map
      (fun xs => PValue.array (xs.map PValue.str))),
   ("LimitLoadToSessionType", la.limit_load_to_session_type.map
      serializeSessionType),
   ("LimitLoadToHardware", la.limit_load_to_hardware.map encodeStringListMap),
   ("LimitLoadFromHardware", la.limit_load_from_hardware.map encodeStringListMap),
   ("Program", la.program.map PValue.str),
   ("BundleProgram", la.bundle_program.map PValue.str),
   ("ProgramArguments", la.program_arguments.map
      (fun xs => PValue.array (xs.map PValue.str))),
   ("EnableGlobbing", la.enable_globbing.map PValue.bool)]

/-- Second part of the serde field table of `LaunchAgent` (lifecycle and
process-behavior fields). -/
def fieldTableB (la : LaunchAgent) : List (String × Option PValue) :=
  [("EnableTransactions", la.enable_transactions.map PValue.bool),
   ("EnablePressuredExit", la.enable_pressured_exit.map PValue.bool),
   ("OnDemand", la.on_demand.map PValue.bool),
   ("ServiceIPC", la.service_ipc.map PValue.bool),
   ("KeepAlive", la.keep_alive.map serializeKeepAlive),
   ("RunAtLoad", la.run_at_load.map PValue.bool),
   ("RootDirectory", la.root_directory.map PValue.str),
   ("WorkingDirectory", la.working_directory.map PValue.str),
   ("EnvironmentVariables", la.environment_variables.map encodeStringMap),
   ("Umask", la.umask.map serializeStringOrF32),
   ("TimeOut", la.time_out.map (fun n => PValue.int n)),
   ("ExitTimeOut", la.exit_time_out.map (fun n => PValue.int n)),
   ("ThrottleInterval", la.throttle_interval.map (fun n => PValue.int n)),
   ("InitGroups", la.init_groups.map PValue.bool)]

/-- Third part of the serde field table of `LaunchAgent` (triggers and I/O
redirection fields). -/
def fieldTableC (la : LaunchAgent) : List (String × Option PValue) :=
  [("WatchPaths", la.watch_paths.map (fun xs => PValue.array (xs.map PValue.str))),
   ("QueueDirectories", la.queue_directories.map
      (fun xs => PValue.array (xs.map PValue.str))),
   ("StartOnMount", la.start_on_mount.map PValue.bool),
   ("StartInterval", la.start_interval.map (fun n => PValue.int n)),
   ("StartCalendarInterval", la.start_calendar_interval.map
      (fun xs => PValue.array
        (xs.map (fun ci => PValue.dict (serializeCalendarInterval ci))))),
   ("StandardInPath", la.standard_in_path.map PValue.str),
   ("StandardOutPath", la.standard_out_path.map PValue.str),
   ("StandardErrorPath", la.standard_error_path.map PValue.str),
   ("Debug", la.debug.map PValue.bool),
   ("WaitForDebugger", la.wait_for_debugger.map PValue.bool),
   ("SoftResourceLimits", la.soft_resource_limits.map
      (fun rl => PValue.dict (serializeResourceLimits rl))),
   ("HardResourceLimits", la.hard_resource_limits.map
      (fun rl => PValue.dict (serializeResourceLimits rl))),
   ("Nice", la.nice.map PValue.int),
   ("ProcessType", la.process_type.map serializeProcessType)]

/-- Fourth part of the serde field table of `LaunchAgent` (process flags,
IPC surface, deprecated tail fields). -/
def fieldTableD (la : LaunchAgent) : List (String × Option PValue) :=
  [("AbandonProcessGroup", la.abandon_process_group.map PValue.bool),
   ("LowPriorityIO", la.low_priority_io.map PValue.bool),
   ("LowPriorityBackgroundIO", la.low_priority_background_io.map PValue.bool),
   ("MaterializedDatalessFiles", la.materialized_dataless_files.map PValue.bool),
   ("LaunchOnlyOnce", la.launch_only_once.map PValue.bool),
   ("MachServices", la.mach_services.map
      (fun m => PValue.dict (m.map (fun kv => (kv.1, serializeMachService kv.2))))),
   ("Sockets", la.sockets.map
      (fun m => PValue.dict (m.map (fun kv => (kv.1, serializeSocketValue kv.2))))),
   ("LaunchEvents", la.launch_events.map
      (fun m => PValue.dict (m.map (fun kv =>
        (kv.1, PValue.dict (kv.2.map (fun kv2 => (kv2.1, encodeStringMap kv2.2)))))))),
   ("HopefullyExitsLast", la.hopefully_exits_last.map PValue.str),
   ("HopefullyExitsFirst", la.hopefully_exits_first.map PValue.str),
   ("SessionCreate", la.session_create.map PValue.bool),
   ("LegacyTimers", la.legacy_timers.map PValue.bool),
   ("AssociatedBundleIdentifiers", la.associated_bundle_identifiers.map
      serializeStringOrVec)]

/-- The serde field table of `LaunchAgent`: every field of the schema, in
declaration order, paired with its serialized key (PascalCase per
`#[serde(rename_all = "PascalCase")]`, with the explicit renames
`ServiceIPC`, `LowPriorityIO`, `LowPriorityBackgroundIO`) and its encoded
value (`none` when the field is unset). -/
def fieldTable (la : LaunchAgent) : List (String × Option PValue) :=
  fieldTableA la ++ fieldTableB la ++ fieldTableC la ++ fieldTableD la

/-- Serialization of a `LaunchAgent` to the top-level plist dictionary:
exactly the field-table entries whose value is present, in order; unset
fields contribute nothing. -/
def serializeLaunchAgent (la : LaunchAgent) : List (String × PValue) :=
  (fieldTable la).filterMap (fun e => e.2.map (fun v => (e.1, v)))

/-- The keys present in the serialized output. -/
def presentKeys (la : LaunchAgent) : List String :=
  (serializeLaunchAgent la).map Prod.fst

/-- Mirrors `src/launchagent/structs.rs`: the builder generated by
`#[derive(Builder)]` with `#[builder(default, setter(into, strip_option))]`.
Each builder field holds the value passed to its setter (`strip_option`
setters take the bare value for `Option` targets), or `none` when the
setter was never called. -/
structure LaunchAgentBuilder where
  label : Option String := none
  disabled : Option Bool := none
  user_name : Option String := none
  group_name : Option String := none
  inetd_compatibility : Option InetdCompatibility := none
  limit_load_to_hosts : Option (List String) := none
  limit_load_from_hosts : Option (List String) := none
  limit_load_to_session_type : Option SessionType := none
  limit_load_to_hardware : Option (List (String × List String)) := none
  limit_load_from_hardware : Option (List (String × List String)) := none
  program : Option String := none
  bundle_program : Option String := none
  program_arguments : Option (List String) := none
  enable_globbing : Option Bool := none
  enable_transactions : Option Bool := none
  enable_pressured_exit : Option Bool := none
  on_demand : Option Bool := none
  service_ipc : Option Bool := none
  keep_alive : Option KeepAlive := none
  run_at_load : Option Bool := none
  root_directory : Option String := none
  working_directory : Option String := none
  environment_variables : Option (List (String × String)) := none
  umask : Option StringOrF32 := none
  time_out : Option Nat := none
  exit_time_out : Option Nat := none
  throttle_interval : Option Nat := none
  init_groups : Option Bool := none
  watch_paths : Option (List String) := none
  queue_directories : Option (List String) := none
  start_on_mount : Option Bool := none
  start_interval : Option Nat := none
  start_calendar_interval : Option (List CalendarInterval) := none
  standard_in_path : Option String := none
  standard_out_path : Option String := none
  standard_error_path : Option String := none
  debug : Option Bool := none
  wait_for_debugger : Option Bool := none
  soft_resource_limits : Option ResourceLimits := none
  hard_resource_limits : Option ResourceLimits := none
  nice : Option Int := none
  process_type : Option ProcessType := none
  abandon_process_group : Option Bool := none
  low_priority_io : Option Bool := none
  low_priority_background_io : Option Bool := none
  materialized_dataless_files : Option Bool := none
  launch_only_once : Option Bool := none
  mach_services : Option (List (String × MachService)) := none
  sockets : Option (List (String × SocketValue)) := none
  launch_events : Option (List (String × List (String × List (String × String)))) := none
  hopefully_exits_last : Option String := none
  hopefully_exits_first : Option String := none
  session_create : Option Bool := none
  legacy_timers : Option Bool := none
  associated_bundle_identifiers : Option StringOrVec := none

/-- The value materialized by `LaunchAgentBuilder::build`.  Because of the
struct-level `#[builder(default)]`, every unset field falls back to its
type's `Default` — `""` for the required `label : String`, `None` for every
optional field — so `build` can never fail. -/
def LaunchAgentBuilder.buildAgent (b : LaunchAgentBuilder) : LaunchAgent :=
  { label := b.label.getD ""
    disabled := b.disabled
    user_name := b.user_name
    group_name := b.group_name
    inetd_compatibility := b.inetd_compatibility
    limit_load_to_hosts := b.limit_load_to_hosts
    limit_load_from_hosts := b.limit_load_from_hosts
    limit_load_to_session_type := b.limit_load_to_session_type
    limit_load_to_hardware := b.limit_load_to_hardware
    limit_load_from_hardware := b.limit_load_from_hardware
    program := b.program
    bundle_program := b.bundle_program
    program_arguments := b.program_arguments
    enable_globbing := b.enable_globbing
    enable_transactions := b.enable_transactions
    enable_pressured_exit := b.enable_pressured_exit
    on_demand := b.on_demand
    service_ipc := b.service_ipc
    keep_alive := b.keep_alive
    run_at_load := b.run_at_load
    root_directory := b.root_directory
    working_directory := b.working_directory
    environment_variables := b.environment_variables
    umask := b.umask
    time_out := b.time_out
    exit_time_out := b.exit_time_out
    throttle_interval := b.throttle_interval
    init_groups := b.init_groups
    watch_paths := b.watch_paths
    queue_directories := b.queue_directories
    start_on_mount := b.start_on_mount
    start_interval := b.start_interval
    start_calendar_interval := b.start_calendar_interval
    standard_in_path := b.standard_in_path
    standard_out_path := b.standard_out_path
    standard_error_path := b.standard_error_path
    debug := b.debug
    wait_for_debugger := b.wait_for_debugger
    soft_resource_limits := b.soft_resource_limits
    hard_resource_limits := b.hard_resource_limits
    nice := b.nice
    process_type := b.process_type
    abandon_process_group := b.abandon_process_group
    low_priority_io := b.low_priority_io
    low_priority_background_io := b.low_priority_background_io
    materialized_dataless_files := b.materialized_dataless_files
    launch_only_once := b.launch_only_once
    mach_services := b.mach_services
    sockets := b.sockets
    launch_events := b.launch_events
    hopefully_exits_last := b.hopefully_exits_last
    hopefully_exits_first := b.hopefully_exits_first
    session_create := b.session_create
    legacy_timers := b.legacy_timers
    associated_bundle_identifiers := b.associated_bundle_identifiers }

/-- Mirrors `LaunchAgentBuilder::build`: returns `Result<LaunchAgent, _>`; with the
struct-level default it always takes the `Ok` path. -/
def LaunchAgentBuilder.build (b : LaunchAgentBuilder) : Except String LaunchAgent :=
  .ok b.buildAgent

/-- The generated `label` setter (last write wins). -/
def LaunchAgentBuilder.withLabel (b : LaunchAgentBuilder) (s : String) :
    LaunchAgentBuilder :=
  { b with label := some s }

/-- The generated `program` setter. -/
def LaunchAgentBuilder.withProgram (b : LaunchAgentBuilder) (s : String) :
    LaunchAgentBuilder :=
  { b with program := some s }

/-- The generated bulk `program_arguments` setter. -/
def LaunchAgentBuilder.withProgramArguments (b : LaunchAgentBuilder)
    (xs : List String) : LaunchAgentBuilder :=
  { b with program_arguments := some xs }

/-- The generated element-wise `program_argument` append setter
(`#[builder(setter(each(name = "program_argument", into)))]`): pushes one
argument onto the accumulated vector, starting from the empty default. -/
def LaunchAgentBuilder.programArgument (b : LaunchAgentBuilder)
    (a : String) : LaunchAgentBuilder :=
  { b with program_arguments := some (b.program_arguments.getD [] ++ [a]) }

/-- Mirrors `src/launchagent/impls.rs`: `LaunchAgent::new` — builder default, set
`label` and `program`, build, unwrap. -/
def LaunchAgent.new (label : String) (program : String) : LaunchAgent :=
  ((({} : LaunchAgentBuilder).withLabel label).withProgram program).buildAgent

/-- Mirrors `src/launchagent/impls.rs`: `LaunchAgent::new_with_args` — builder
default, set `label` and the bulk `program_arguments`, build, unwrap. -/
def LaunchAgent.new_with_args (label : String)
    (program_arguments : List String) : LaunchAgent :=
  ((({} : LaunchAgentBuilder).withLabel label).withProgramArguments
    program_arguments).buildAgent

/-! ## The filesystem model and `save`

`LaunchAgent::save` touches the OS through three black boxes:
`PathBuf::join`/`Path::parent` (path syntax), `fs::create_dir_all`, and
`plist::to_file_xml`.  Paths are modelled as strings with the `std::path`
syntax on separator-normalized paths; the filesystem is a set of existing
directories plus a map from file paths to written plist dictionaries; the
environmental success or failure of the two fallible calls (permissions,
disk state) is an explicit oracle parameter. -/

/-- Models `PathBuf::from(base).join(child)`: an absolute `child` replaces the
path, otherwise `child` is appended with a `/` separator (not doubled when
`base` already ends in one, not added when `base` is empty). -/
def joinPath (base child : String) : String :=
  if child.data.head? = some '/' then child
  else if base = "" then child
  else if base.data.getLast? = some '/' then base ++ child
  else base ++ "/" ++ child

/-- Models `Path::parent`: strip the final path component (and its separator).
`None` for the root or the empty path; `Some ""` for a bare relative
component; `Some "/"` when only the root remains.  Matches `std::path` on
paths without redundant separators. -/
def parentOf (p : String) : Option String :=
  if p.data = [] ∨ p.data = ['/'] then none
  else
    match p.data.reverse.dropWhile (fun c => c ≠ '/') with
    | [] => some ""
    | ['/'] => some "/"
    | _ :: rest => some (String.mk rest.reverse)

/-- The chain of a path and its ancestors (fuelled by the string length;
`parentOf` strictly shortens its argument, so the fuel suffices). -/
def pathChain : Nat → String → List String
  | 0, p => [p]
  | n + 1, p =>
      p :: (match parentOf p with
            | none => []
            | some q => pathChain n q)

/-- All directories `fs::create_dir_all dir` guarantees to exist: the
directory itself and every ancestor. -/
def ancestorDirs (p : String) : List String :=
  pathChain p.length p

/-- The filesystem state: existing directories and written files. -/
structure FS where
  dirs : List String := []
  files : List (String × List (String × PValue)) := []

/-- Add a directory if absent (directory creation is silent when the
directory already exists). -/
def insertDir (dirs : List String) (d : String) : List String :=
  if d ∈ dirs then dirs else dirs ++ [d]

/-- Models `fs::create_dir_all`: ensure the directory and all its ancestors
exist. -/
def createDirAll (fs : FS) (dir : String) : FS :=
  { fs with dirs := (ancestorDirs dir).foldl insertDir fs.dirs }

/-- Write a file, replacing any file already present at that path (the
plain-overwrite policy of `plist::to_file_xml` via `File::create`). -/
def writeFile (fs : FS) (p : String) (content : List (String × PValue)) : FS :=
  { fs with files := (p, content) :: fs.files.filter (fun e => e.1 ≠ p) }

/-- Look up a file's content. -/
def lookupFile (fs : FS) (p : String) : Option (List (String × PValue)) :=
  (fs.files.find? (fun e => e.1 = p)).map (fun e => e.2)

/-- The environmental outcome of the two fallible external calls inside
`save`: both succeed, `fs::create_dir_all` fails, or `plist::to_file_xml`
fails. -/
inductive FsOutcome where
  | ok
  | dirFail
  | writeFail
deriving DecidableEq

/-- The target path computed by `save`:
`PathBuf::from(out_dir).join(format!("{}.plist", self.label))`. -/
def savePath (la : LaunchAgent) (outDir : String) : String :=
  joinPath outDir (la.label ++ ".plist")

/-- Mirrors `src/launchagent/impls.rs`: `LaunchAgent::save`.  Compute the target
path; if it has a parent, create the parent directories (a failure is
wrapped as `Failed to create parent directories for {parent:?}` and
returned); then encode and write the plist (a failure is wrapped as
`Failed to save LaunchAgent to {path:?}` and returned). -/
def save (la : LaunchAgent) (outDir : String) (fs : FS) (env : FsOutcome) :
    Except String FS :=
  let path := savePath la outDir
  match parentOf path with
  | some parent =>
      if env = .dirFail then
        .error ("Failed to create parent directories for \"" ++ parent ++ "\"")
      else
        let fs1 := createDirAll fs parent
        if env = .writeFail then
          .error ("Failed to save LaunchAgent to \"" ++ path ++ "\"")
        else
          .ok (writeFile fs1 path (serializeLaunchAgent la))
  | none =>
      if env = .writeFail then
        .error ("Failed to save LaunchAgent to \"" ++ path ++ "\"")
      else
        .ok (writeFile fs path (serializeLaunchAgent la))

/-- Models, as `resolvePath`, the kernel's lexical resolution of an absolute
path at syscall time: split on `/`, drop empty and `.` components, let `..`
pop the previous component (staying at the root when there is none).  It is
used to state where a saved file actually lands when the label smuggles
`..` components into the target path. -/
def splitSlash : List Char → List Char → List (List Char)
  | [], acc => [acc.reverse]
  | '/' :: rest, acc => acc.reverse :: splitSlash rest []
  | c :: rest, acc => splitSlash rest (c :: acc)

/-- One step of lexical resolution: `..` pops, `.` and empty components are
skipped, anything else is pushed. -/
def resolveStep (stack : List String) (c : List Char) : List String :=
  if c = ['.', '.'] then stack.dropLast
  else if c = ['.'] ∨ c = [] then stack
  else stack ++ [String.mk c]

/-- Lexical resolution of an absolute path (see `splitSlash`). -/
def resolvePath (p : String) : String :=
  "/" ++ String.intercalate "/" ((splitSlash p.data []).foldl resolveStep [])

/-! ## Helper lemmas -/

/-- A key appears among the keys of the rendered dictionary exactly when its
table entry is present (`some`). -/
theorem mem_map_fst_filterMap {α β : Type} (t : List (α × Option β)) (k : α) :
    k ∈ (t.filterMap (fun e => e.2.map (fun v => (e.1, v)))).map Prod.fst ↔
      ∃ v, (k, some v) ∈ t := by
  induction t with
  | nil => simp
  | cons e t ih =>
    obtain ⟨k1, v1⟩ := e
    cases v1 with
    | none =>
      have hstep : ((k1, (none : Option β)) :: t).filterMap
          (fun e => e.2.map (fun v => (e.1, v))) =
          t.filterMap (fun e => e.2.map (fun v => (e.1, v))) := by simp
      rw [hstep, ih]
      constructor
      · rintro ⟨v, hv⟩
        exact ⟨v, List.mem_cons_of_mem _ hv⟩
      · rintro ⟨v, hv⟩
        rcases List.mem_cons.mp hv with h1 | h1
        · exact absurd (congrArg Prod.snd h1) (by simp)
        · exact ⟨v, h1⟩
    | some w =>
      have hstep : ((k1, some w) :: t).filterMap
          (fun e => e.2.map (fun v => (e.1, v))) =
          (k1, w) :: t.filterMap (fun e => e.2.map (fun v => (e.1, v))) := by simp
      rw [hstep]
      simp only [List.map_cons, List.mem_cons, ih]
      constructor
      · rintro (rfl | ⟨v, hv⟩)
        · exact ⟨w, Or.inl rfl⟩
        · exact ⟨v, Or.inr hv⟩
      · rintro ⟨v, h1 | h1⟩
        · exact Or.inl (congrArg Prod.fst h1)
        · exact Or.inr ⟨v, h1⟩

/-- In a table with no duplicate keys, a key whose entry is `none` has no
`some` entry. -/
theorem none_some_clash {α β : Type} :
    ∀ (t : List (α × Option β)), (t.map Prod.fst).Nodup →
      ∀ k : α, (k, (none : Option β)) ∈ t →
        ∀ v : β, (k, some v) ∈ t → False := by
  intro t
  induction t with
  | nil => intro _ k hk; simp at hk
  | cons e t ih =>
    intro hnd k hk v hv
    rw [List.map_cons] at hnd
    obtain ⟨hhead, htail⟩ := List.nodup_cons.mp hnd
    rcases List.mem_cons.mp hk with hk1 | hk1
    · rcases List.mem_cons.mp hv with hv1 | hv1
      · have hcontra : (none : Option β) = some v :=
          congrArg Prod.snd (hk1.trans hv1.symm)
        simp at hcontra
      · apply hhead
        have hfst : e.1 = k := congrArg Prod.fst hk1.symm
        exact hfst ▸ List.mem_map_of_mem Prod.fst hv1
    · rcases List.mem_cons.mp hv with hv1 | hv1
      · apply hhead
        have hfst : e.1 = k := congrArg Prod.fst hv1.symm
        exact hfst ▸ List.mem_map_of_mem Prod.fst hk1
      · exact ih htail k hk1 v hv1

/-- The fixed key list of the `LaunchAgent` schema, in declaration order. -/
def launchAgentKeys : List String :=
  ["Label", "Disabled", "UserName", "GroupName", "InetdCompatibility",
   "LimitLoadToHosts", "LimitLoadFromHosts", "LimitLoadToSessionType",
   "LimitLoadToHardware", "LimitLoadFromHardware", "Program", "BundleProgram",
   "ProgramArguments", "EnableGlobbing", "EnableTransactions",
   "EnablePressuredExit", "OnDemand", "ServiceIPC", "KeepAlive", "RunAtLoad",
   "RootDirectory", "WorkingDirectory", "EnvironmentVariables", "Umask",
   "TimeOut", "ExitTimeOut", "ThrottleInterval", "InitGroups", "WatchPaths",
   "QueueDirectories", "StartOnMount", "StartInterval",
   "StartCalendarInterval", "StandardInPath", "StandardOutPath",
   "StandardErrorPath", "Debug", "WaitForDebugger", "SoftResourceLimits",
   "HardResourceLimits", "Nice", "ProcessType", "AbandonProcessGroup",
   "LowPriorityIO", "LowPriorityBackgroundIO", "MaterializedDatalessFiles",
   "LaunchOnlyOnce", "MachServices", "Sockets", "LaunchEvents",
   "HopefullyExitsLast", "HopefullyExitsFirst", "SessionCreate",
   "LegacyTimers", "AssociatedBundleIdentifiers"]

/-- The field-table keys are the schema keys, independent of the agent. -/
theorem fieldTable_map_fst (la : LaunchAgent) :
    (fieldTable la).map Prod.fst = launchAgentKeys := rfl

/-- The schema keys are pairwise distinct. -/
theorem launchAgentKeys_nodup : launchAgentKeys.Nodup := by decide

/-- Appending the `.plist` extension adds six characters. -/
theorem length_append_plist (s : String) : (s ++ ".plist").length = s.length + 6 := by
  have h : (".plist" : String).length = 6 := rfl
  rw [String.length_append, h]

/-- The target path of `save` always has at least six characters (it ends
in `.plist`), so it is neither the empty path nor the bare root. -/
theorem savePath_length (la : LaunchAgent) (outDir : String) :
    6 ≤ (savePath la outDir).length := by
  unfold savePath joinPath
  split
  · rw [length_append_plist]; omega
  · split
    · rw [length_append_plist]; omega
    · split
      · rw [String.length_append, length_append_plist]; omega
      · rw [String.length_append, String.length_append, length_append_plist]; omega

/-- The parent directory that `save` creates. -/
def saveParent (la : LaunchAgent) (outDir : String) : String :=
  (parentOf (savePath la outDir)).getD ""

/-- The target path of `save` always has a parent (its `if let` always
takes the `Some` branch). -/
theorem parentOf_savePath (la : LaunchAgent) (outDir : String) :
    parentOf (savePath la outDir) = some (saveParent la outDir) := by
  have hlen := savePath_length la outDir
  rcases hp : parentOf (savePath la outDir) with _ | q
  · exfalso
    unfold parentOf at hp
    by_cases hcond : (savePath la outDir).data = [] ∨ (savePath la outDir).data = ['/']
    · rcases hcond with h1 | h1
      · have h2 : (savePath la outDir).length = 0 := by
          show (savePath la outDir).data.length = 0
          rw [h1]; rfl
        omega
      · have h2 : (savePath la outDir).length = 1 := by
          show (savePath la outDir).data.length = 1
          rw [h1]; rfl
        omega
    · rw [if_neg hcond] at hp
      split at hp <;> simp at hp
  · simp [saveParent, hp]

/-- Unfolding lemma: `save` with both external calls succeeding performs create the parent
directories, then write the serialized plist at the target path. -/
theorem save_ok_eq (la : LaunchAgent) (outDir : String) (fs : FS) :
    save la outDir fs .ok =
      .ok (writeFile (createDirAll fs (saveParent la outDir))
        (savePath la outDir) (serializeLaunchAgent la)) := by
  simp [save, parentOf_savePath]

/-- Unfolding lemma: when directory creation fails, `save` returns the wrapped error names the
parent directory. -/
theorem save_dirFail_eq (la : LaunchAgent) (outDir : String) (fs : FS) :
    save la outDir fs .dirFail =
      .error ("Failed to create parent directories for \"" ++
        saveParent la outDir ++ "\"") := by
  simp [save, parentOf_savePath]

/-- Unfolding lemma: when the encode/write step fails, `save` returns the wrapped error names the
target file path. -/
theorem save_writeFail_eq (la : LaunchAgent) (outDir : String) (fs : FS) :
    save la outDir fs .writeFail =
      .error ("Failed to save LaunchAgent to \"" ++ savePath la outDir ++ "\"") := by
  simp [save, parentOf_savePath]

/-- A freshly written file is found at its path with the written content. -/
theorem lookupFile_writeFile (fs : FS) (p : String)
    (c : List (String × PValue)) :
    lookupFile (writeFile fs p c) p = some c := by
  simp [lookupFile, writeFile]

/-- Folding `insertDir` preserves old members and adds the folded ones. -/
theorem mem_foldl_insertDir (l : List String) (acc : List String) (a : String)
    (h : a ∈ acc ∨ a ∈ l) : a ∈ l.foldl insertDir acc := by
  induction l generalizing acc with
  | nil => simpa using h
  | cons x xs ih =>
    apply ih
    rcases h with h | h
    · left
      unfold insertDir
      split
      · exact h
      · exact List.mem_append_left _ h
    · rcases List.mem_cons.mp h with rfl | h
      · left
        unfold insertDir
        split
        · assumption
        · exact List.mem_append_right _ (List.mem_singleton_self a)
      · right; exact h

/-- Folding `insertDir` over directories that already exist is the
identity. -/
theorem foldl_insertDir_id (l : List String) (acc : List String)
    (h : ∀ d ∈ l, d ∈ acc) : l.foldl insertDir acc = acc := by
  induction l with
  | nil => rfl
  | cons x xs ih =>
    have hx : insertDir acc x = acc := by
      unfold insertDir
      rw [if_pos (h x (List.mem_cons_self x xs))]
    rw [List.foldl_cons, hx]
    exact ih (fun d hd => h d (List.mem_cons_of_mem _ hd))

/-- After `createDirAll`, the directory and all its ancestors exist. -/
theorem createDirAll_mem (fs : FS) (dir : String) (d : String)
    (h : d ∈ ancestorDirs dir) : d ∈ (createDirAll fs dir).dirs := by
  unfold createDirAll
  exact mem_foldl_insertDir _ _ _ (Or.inr h)

/-- Silent success: `createDirAll` changes nothing when the directory
chain already exists. -/
theorem createDirAll_id (fs : FS) (dir : String)
    (h : ∀ d ∈ ancestorDirs dir, d ∈ fs.dirs) : createDirAll fs dir = fs := by
  unfold createDirAll
  rw [foldl_insertDir_id _ _ h]

/-! ## Claim theorems -/

/-- C1: for every `LaunchAgent` descriptor and every optional field of it
that is unset (`none`), serialization produces output in which the key
corresponding to that field does not appear at all — stated exhaustively
over the whole schema via the field table, whose entries enumerate every
field with its serialized key. -/
theorem unset_optional_field_omitted (la : LaunchAgent) (k : String)
    (h : (k, (none : Option PValue)) ∈ fieldTable la) :
    k ∉ presentKeys la := by
  intro hmem
  have h2 : ∃ v, (k, some v) ∈ fieldTable la :=
    (mem_map_fst_filterMap (fieldTable la) k).mp
      (by simpa [presentKeys, serializeLaunchAgent] using hmem)
  obtain ⟨v, hv⟩ := h2
  have hnodup : ((fieldTable la).map Prod.fst).Nodup := by
    rw [fieldTable_map_fst]
    exact launchAgentKeys_nodup
  exact none_some_clash (fieldTable la) hnodup k h v hv

/-- Witness for C1: on the default descriptor the unset `disabled` field
has entry `("Disabled", none)` in the field table, and `"Disabled"` is
absent from the serialized keys. -/
theorem unset_optional_field_omitted_witness :
    (("Disabled", (none : Option PValue)) ∈ fieldTable ({} : LaunchAgent)) ∧
    "Disabled" ∉ presentKeys ({} : LaunchAgent) :=
  ⟨List.mem_cons_of_mem _ (List.mem_cons_self _ _),
   unset_optional_field_omitted {} "Disabled"
     (List.mem_cons_of_mem _ (List.mem_cons_self _ _))⟩

/-- C2: for every descriptor with an arbitrary subset of optional fields
set, the keys present in the serialized (and hence decoded) dictionary are
exactly the keys of the set fields — no extras, no omissions — under the
exact documented key names; and the nine resource-limit fields reproduce
their exact numeric values under their documented names, `cpu` under
`CPU`. -/
theorem serialized_keys_match_set_fields :
    (∀ (la : LaunchAgent) (k : String),
        k ∈ presentKeys la ↔ ∃ v, (k, some v) ∈ fieldTable la) ∧
    (∀ c u d f m nf np r s : Nat,
        serializeResourceLimits
          { core := some c, cpu := some u, data := some d, file_size := some f,
            memory_lock := some m, number_of_files := some nf,
            number_of_processes := some np, resident_set_size := some r,
            stack := some s } =
          [("Core", .int c), ("CPU", .int u), ("Data", .int d),
           ("FileSize", .int f), ("MemoryLock", .int m),
           ("NumberOfFiles", .int nf), ("NumberOfProcesses", .int np),
           ("ResidentSetSize", .int r), ("Stack", .int s)]) := by
  constructor
  · intro la k
    have h := mem_map_fst_filterMap (fieldTable la) k
    simpa [presentKeys, serializeLaunchAgent] using h
  · intro c u d f m nf np r s
    rfl

/-- C3 (evaluation at the failing input): because `KeepAlive` lacks
`#[serde(untagged)]`, the boolean variant serializes as the externally
tagged dictionary mapping `"Bool"` to the boolean — not as a bare boolean —
and the object variant with only `crashed = true` serializes as a
dictionary wrapping the tag key `"Object"` around a dictionary with the
snake_case key `"crashed"` — not as a bare dictionary containing only
`Crashed: true`. -/
theorem keepAlive_serialized_externally_tagged :
    serializeKeepAlive (.bool true) = .dict [("Bool", .bool true)] ∧
    serializeKeepAlive (.object none none none none (some true)) =
      .dict [("Object", .dict [("crashed", .bool true)])] := ⟨rfl, rfl⟩

/-- C4 (evaluation at the failing input): the umask union is
`StringOrF32`, whose `Integer` variant holds an `f32` and therefore
serializes as a plist real — not an integer — while the socket
service-name union `StringOrU32` does serialize its integer variant as a
plist integer; both reach the output unwrapped under their field keys. -/
theorem umask_integer_variant_serializes_as_real :
    serializeStringOrF32 (.integer 18) = .real 18 ∧
    (∀ x : Rat, serializeStringOrF32 (.integer x) = .real x) ∧
    (∀ n : Nat, serializeStringOrU32 (.integer n) = .int n) ∧
    (∀ (la : LaunchAgent) (x : Rat), la.umask = some (.integer x) →
        ("Umask", some (PValue.real x)) ∈ fieldTable la) ∧
    (∀ (s : Socket) (n : Nat), s.service_name = some (.integer n) →
        ("SockServiceName", PValue.int n) ∈ serializeSocket s) := by
  refine ⟨rfl, fun x => rfl, fun n => rfl, ?_, ?_⟩
  · intro la x h
    simp [fieldTable, fieldTableA, fieldTableB, fieldTableC, fieldTableD, h,
      serializeStringOrF32]
  · intro s n h
    simp [serializeSocket, optEntry, h, serializeStringOrU32]

/-- Witness for C4: a descriptor with umask `Integer(18)` carries
`("Umask", real 18)` in its field table, and a socket with service name
`Integer(22)` serializes `("SockServiceName", int 22)`. -/
theorem umask_integer_variant_serializes_as_real_witness :
    ({ umask := some (.integer 18) } : LaunchAgent).umask = some (.integer 18) ∧
    ("Umask", some (PValue.real 18)) ∈
      fieldTable ({ umask := some (.integer 18) } : LaunchAgent) ∧
    ({ service_name := some (.integer 22) } : Socket).service_name =
      some (.integer 22) ∧
    ("SockServiceName", PValue.int 22) ∈
      serializeSocket ({ service_name := some (.integer 22) } : Socket) :=
  ⟨rfl,
   umask_integer_variant_serializes_as_real.2.2.2.1
     { umask := some (.integer 18) } 18 rfl,
   rfl,
   umask_integer_variant_serializes_as_real.2.2.2.2
     { service_name := some (.integer 22) } 22 rfl⟩

/-- C5: a successful `save` writes the serialized plist at exactly
`outDir/label.plist`, replacing whatever file the filesystem held at that
path (the lookup after the write returns the new content for every prior
filesystem state); concretely, label `com.example.test` into `/tmp/out`
targets `/tmp/out/com.example.test.plist`. -/
theorem save_writes_label_plist :
    (∀ (la : LaunchAgent) (outDir : String) (fs : FS),
        ∃ fs2, save la outDir fs .ok = .ok fs2 ∧
          lookupFile fs2 (savePath la outDir) = some (serializeLaunchAgent la)) ∧
    savePath { label := "com.example.test" } "/tmp/out" =
      "/tmp/out/com.example.test.plist" := by
  constructor
  · intro la outDir fs
    exact ⟨_, save_ok_eq la outDir fs, lookupFile_writeFile _ _ _⟩
  · decide

/-- C6: `save` succeeds from any prior filesystem state and leaves the
target's parent directory and all its ancestors existing; directory
creation changes nothing (succeeds silently) when the chain already exists;
and the ancestors of `/tmp/out/nested/deep` are all the intermediate
levels. -/
theorem save_creates_parent_dirs :
    (∀ (la : LaunchAgent) (outDir : String) (fs : FS),
        ∃ fs2, save la outDir fs .ok = .ok fs2 ∧
          ∀ d ∈ ancestorDirs (saveParent la outDir), d ∈ fs2.dirs) ∧
    (∀ (fs : FS) (dir : String),
        (∀ d ∈ ancestorDirs dir, d ∈ fs.dirs) → createDirAll fs dir = fs) ∧
    ancestorDirs "/tmp/out/nested/deep" =
      ["/tmp/out/nested/deep", "/tmp/out/nested", "/tmp/out", "/tmp", "/"] := by
  refine ⟨?_, createDirAll_id, by decide⟩
  intro la outDir fs
  refine ⟨_, save_ok_eq la outDir fs, ?_⟩
  intro d hd
  exact createDirAll_mem fs _ d hd

/-- Witness for C6: when the directory chain of `/` already exists,
`createDirAll` changes nothing. -/
theorem save_creates_parent_dirs_witness :
    (∀ d ∈ ancestorDirs "/", d ∈ (FS.mk ["/"] []).dirs) ∧
    createDirAll (FS.mk ["/"] []) "/" = FS.mk ["/"] [] :=
  ⟨by decide, save_creates_parent_dirs.2.1 (FS.mk ["/"] []) "/" (by decide)⟩

/-- C7: `save` returns `Ok` exactly when neither external step failed; a
directory-creation failure surfaces as an error naming the parent directory
that could not be created, and an encode/write failure surfaces as an error
naming the target file path — both returned to the caller. -/
theorem save_error_propagation :
    ∀ (la : LaunchAgent) (outDir : String) (fs : FS),
      (∃ fs2, save la outDir fs .ok = .ok fs2) ∧
      save la outDir fs .dirFail =
        .error ("Failed to create parent directories for \"" ++
          saveParent la outDir ++ "\"") ∧
      save la outDir fs .writeFail =
        .error ("Failed to save LaunchAgent to \"" ++ savePath la outDir ++ "\"") := by
  intro la outDir fs
  exact ⟨⟨_, save_ok_eq la outDir fs⟩, save_dirFail_eq la outDir fs,
    save_writeFail_eq la outDir fs⟩

/-- C8: `new` with only label and program yields that program and no
`program_arguments`; `new_with_args` (bulk) and element-wise appends via
the `program_argument` each-setter both yield exactly
`["/usr/bin/example", "--option", "value"]` in order. -/
theorem new_minimal_construction :
    (LaunchAgent.new "com.example.test" "/usr/bin/example").label =
      "com.example.test" ∧
    (LaunchAgent.new "com.example.test" "/usr/bin/example").program =
      some "/usr/bin/example" ∧
    (LaunchAgent.new "com.example.test" "/usr/bin/example").program_arguments =
      none ∧
    (LaunchAgent.new_with_args "com.example.test"
        ["/usr/bin/example", "--option", "value"]).label = "com.example.test" ∧
    (LaunchAgent.new_with_args "com.example.test"
        ["/usr/bin/example", "--option", "value"]).program_arguments =
      some ["/usr/bin/example", "--option", "value"] ∧
    (((((({} : LaunchAgentBuilder).withLabel
        "com.example.test").programArgument
        "/usr/bin/example").programArgument
        "--option").programArgument "value").buildAgent).program_arguments =
      some ["/usr/bin/example", "--option", "value"] :=
  ⟨rfl, rfl, rfl, rfl, rfl, rfl⟩

/-- C9: for every builder state (hence every sequence of setter calls),
`build` succeeds, returning the materialized descriptor; the label is the
supplied one when set, and the empty string `""` when the label was never
set — `build` never returns an error on this path. -/
theorem build_always_succeeds :
    ∀ b : LaunchAgentBuilder,
      b.build = .ok b.buildAgent ∧
      b.buildAgent.label = b.label.getD "" ∧
      (b.label = none → b.buildAgent.label = "") := by
  intro b
  refine ⟨rfl, rfl, ?_⟩
  intro h
  show b.label.getD "" = ""
  rw [h]
  rfl

/-- Witness for C9: the pristine builder has no label, builds successfully,
and materializes the empty-string label. -/
theorem build_always_succeeds_witness :
    ({} : LaunchAgentBuilder).label = none ∧
    ({} : LaunchAgentBuilder).build = .ok ({} : LaunchAgentBuilder).buildAgent ∧
    ({} : LaunchAgentBuilder).buildAgent.label = "" :=
  ⟨rfl, (build_always_succeeds {}).1, (build_always_succeeds {}).2.2 rfl⟩

/-- C10: `save` computes the target as the literal join of the output
directory, the label and `.plist` for every label — no validation or
sanitization — so label `sub/name` lands the file at
`/tmp/out/sub/name.plist` and creates the directory `/tmp/out/sub` named
inside the label, and label `../name` targets the literal
`/tmp/out/../name.plist`, which the kernel resolves to `/tmp/name.plist`,
outside the given output directory. -/
theorem save_label_not_sanitized :
    (∀ (la : LaunchAgent) (outDir : String),
        savePath la outDir = joinPath outDir (la.label ++ ".plist")) ∧
    savePath { label := "sub/name" } "/tmp/out" = "/tmp/out/sub/name.plist" ∧
    (∃ fs2, save { label := "sub/name" } "/tmp/out" {} .ok = .ok fs2 ∧
        lookupFile fs2 "/tmp/out/sub/name.plist" =
          some (serializeLaunchAgent { label := "sub/name" }) ∧
        "/tmp/out/sub" ∈ fs2.dirs) ∧
    savePath { label := "../name" } "/tmp/out" = "/tmp/out/../name.plist" ∧
    resolvePath "/tmp/out/../name.plist" = "/tmp/name.plist" ∧
    ("/tmp/out/".data.isPrefixOf (resolvePath "/tmp/out/../name.plist").data) =
      false := by
  refine ⟨fun la outDir => rfl, by decide, ?_, by decide, by decide, by decide⟩
  refine ⟨_, save_ok_eq _ _ _, ?_, ?_⟩
  · rw [show savePath { label := "sub/name" } "/tmp/out" =
      "/tmp/out/sub/name.plist" by decide]
    exact lookupFile_writeFile _ _ _
  · show "/tmp/out/sub" ∈
      (createDirAll {} (saveParent { label := "sub/name" } "/tmp/out")).dirs
    rw [show saveParent { label := "sub/name" } "/tmp/out" = "/tmp/out/sub"
      by decide]
    exact createDirAll_mem _ _ _ (by decide)

end RustLaunchAgent
